import Mathlib

/-!
Shallow embedding of the data-persistence core of the Lily dog-tracking
application: database initialization and seeding
(`database/database_manager.py`), schema setup and the six per-category
insert operations of `DataManager`, the delete-action wiring and the
settings save/restore logic of `ui/main_window.py`.
-/

/-- A file system: a map from paths to file contents (byte lists). -/
def FS : Type := String → Option (List Nat)

/-- Content of the fresh (empty) SQLite database file that a
`QSqlDatabase` open call creates when the target file does not exist. -/
def newDatabaseFile : List Nat := []

/-- Embedding of `initialize_database` (database_manager.py, lines 15-27):
when no file exists at `target_db_path`, either the bundled template at
`db_path` is copied (when present) or a fresh connection is opened and
closed, which creates the file; when the target exists, nothing is done. -/
def initialize_database (db_path target_db_path : String) (fs : FS) : FS :=
  if (fs target_db_path).isSome then fs
  else
    match fs db_path with
    | some content => fun p => if p = target_db_path then some content else fs p
    | none => fun p => if p = target_db_path then some newDatabaseFile else fs p

/-- Witness file system: only the bundled template file exists. -/
def fsTemplateOnly : FS :=
  fun p => if p = "app/lily.db" then some [1, 2, 3] else none

/-- Witness file system: no file exists. -/
def fsNothing : FS := fun _ => none

lemma initialize_database_of_target_exists (db_path target_db_path : String)
    (fs : FS) (h : (fs target_db_path).isSome) :
    initialize_database db_path target_db_path fs = fs := by
  simp [initialize_database, h]

/-- A value stored in a table cell: the insert operations bind strings and
integers. -/
inductive Value where
  | s (v : String)
  | i (v : Int)
deriving DecidableEq

/-- One SQLite table: the AUTOINCREMENT counter and the rows in insertion
order, each row an identity paired with its non-identity column values. -/
structure Table where
  nextId : Nat
  rows : List (Nat × List Value)
deriving DecidableEq

def emptyTable : Table := ⟨1, []⟩

/-- The database: named tables. -/
structure DB where
  tables : List (String × Table)
deriving DecidableEq

def emptyDB : DB := ⟨[]⟩

def hasTable (db : DB) (name : String) : Bool :=
  db.tables.any (fun e => e.1 == name)

def lookupTable (db : DB) (name : String) : Option Table :=
  (db.tables.find? (fun e => e.1 == name)).map Prod.snd

def countTable (db : DB) (name : String) : Nat :=
  db.tables.countP (fun e => e.1 == name)

/-- Updates the (first) table of the given name, leaving the rest alone. -/
def updateTable : List (String × Table) → String → (Table → Table) → List (String × Table)
  | [], _, _ => []
  | (n, t) :: rest, name, f =>
    if n == name then (n, f t) :: rest else (n, t) :: updateTable rest name f

/-- Driver semantics of a `CREATE TABLE IF NOT EXISTS` statement executed via
`QSqlQuery.exec`: adds an empty table when absent; always reports success
(never a duplicate-table error). -/
def execCreateTableIfNotExists (db : DB) (name : String) : DB × Bool :=
  if hasTable db name then (db, true) else (⟨db.tables ++ [(name, emptyTable)]⟩, true)

def createTableIfNotExists (db : DB) (name : String) : DB :=
  (execCreateTableIfNotExists db name).1

/-- Embedding of `DataManager.setup_lily_diet_table`: executes the create
statement and logs an error when the driver reports failure. -/
def setup_lily_diet_table (db : DB) : DB × List String :=
  let r := execCreateTableIfNotExists db "lily_diet_table"
  if r.2 then (r.1, []) else (r.1, ["Error creating table: lily_diet_table"])

/-- Embedding of `DataManager.setup_lily_mood_table`. -/
def setup_lily_mood_table (db : DB) : DB × List String :=
  let r := execCreateTableIfNotExists db "lily_mood_table"
  if r.2 then (r.1, []) else (r.1, ["Error creating table: lily_mood_table"])

/-- Embedding of `DataManager.setup_wiggles_walks_table` (creates
`lily_walk_table`). -/
def setup_wiggles_walks_table (db : DB) : DB × List String :=
  let r := execCreateTableIfNotExists db "lily_walk_table"
  if r.2 then (r.1, []) else (r.1, ["Error creating table: lily_walk_table"])

/-- Embedding of `DataManager.setup_time_in_room_table` (creates
`lily_in_room_table`). -/
def setup_time_in_room_table (db : DB) : DB × List String :=
  let r := execCreateTableIfNotExists db "lily_in_room_table"
  if r.2 then (r.1, []) else (r.1, ["Error creating table: lily_in_room_table"])

/-- Embedding of `DataManager.setup_lily_notes_table`. -/
def setup_lily_notes_table (db : DB) : DB × List String :=
  let r := execCreateTableIfNotExists db "lily_notes_table"
  if r.2 then (r.1, []) else (r.1, ["Error creating table: lily_notes_table"])

/-- Embedding of `DataManager.setup_lily_walk_notes_table` (creates
`lily_walk_notes_table`). -/
def setup_lily_walk_notes_table (db : DB) : DB × List String :=
  let r := execCreateTableIfNotExists db "lily_walk_notes_table"
  if r.2 then (r.1, []) else (r.1, ["Error creating table: lily_walk_notes_table"])

/-- Embedding of `DataManager.setup_tables` (lines 76-95): runs the six
per-table setups in source order, collecting any logged errors. -/
def setup_tables (db : DB) : DB × List String :=
  let r1 := setup_lily_diet_table db
  let r2 := setup_lily_mood_table r1.1
  let r3 := setup_wiggles_walks_table r2.1
  let r4 := setup_time_in_room_table r3.1
  let r5 := setup_lily_notes_table r4.1
  let r6 := setup_lily_walk_notes_table r5.1
  (r6.1, r1.2 ++ r2.2 ++ r3.2 ++ r4.2 ++ r5.2 ++ r6.2)

def setupTablesDB (db : DB) : DB := (setup_tables db).1

/-- The six table names created by `setup_tables`, in creation order. -/
def categoryTableNames : List String :=
  ["lily_diet_table", "lily_mood_table", "lily_walk_table",
   "lily_in_room_table", "lily_notes_table", "lily_walk_notes_table"]

/-- Number of parameter placeholders in a SQL statement, as computed by the
Python `sql.count` call in each insert handler. -/
def countQMarks (s : String) : Nat :=
  s.toList.countP (fun c => c == '?')

/-- The prepared statement of `insert_into_lily_notes_table` (line 138). -/
def lily_notes_insert_sql : String :=
  "INSERT INTO lily_notes_table(lily_date, lily_time, lily_notes) VALUES (?, ?, ?)"

/-- The prepared statement of `insert_into_time_in_room_table` (line 197). -/
def time_in_room_insert_sql : String :=
  "INSERT INTO lily_in_room_table(lily_date, lily_time, time_in_room_slider) VALUES (?, ?, ?)"

/-- The prepared statement of `insert_into_lily_diet_table` (line 254). -/
def lily_diet_insert_sql : String :=
  "INSERT INTO lily_diet_table(lily_date, lily_time) VALUES (?, ?)"

/-- The prepared statement of `insert_into_lily_mood_table` (line 308). -/
def lily_mood_insert_sql : String :=
  "INSERT INTO lily_mood_table(lily_date, lily_time, lily_mood_slider, lily_mood_activity_slider, lily_energy_slider) VALUES (?, ?, ?, ?, ?)"

/-- The prepared statement of `insert_into_wiggles_walks_table` (line 373). -/
def lily_walk_insert_sql : String :=
  "INSERT INTO lily_walk_table(lily_date, lily_time, lily_behavior, lily_gait) VALUES (?, ?, ?, ?)"

/-- The prepared statement of `insert_into_lily_walk_notes_table` (line 435). -/
def lily_walk_notes_insert_sql : String :=
  "INSERT INTO lily_walk_notes_table(lily_date, lily_time, lily_walk_note) VALUES (?, ?, ?)"

/-- The bound values of `insert_into_lily_notes_table` (line 139). -/
def lily_notes_bind_values (lily_date lily_time lily_notes : String) : List Value :=
  [.s lily_date, .s lily_time, .s lily_notes]

/-- The bound values of `insert_into_time_in_room_table` (line 199). -/
def time_in_room_bind_values (lily_date lily_time : String) (time_in_room_slider : Int) : List Value :=
  [.s lily_date, .s lily_time, .i time_in_room_slider]

/-- The bound values of `insert_into_lily_diet_table` (line 255). -/
def lily_diet_bind_values (lily_date lily_time : String) : List Value :=
  [.s lily_date, .s lily_time]

/-- The bound values of `insert_into_lily_mood_table` (lines 311-312). -/
def lily_mood_bind_values (lily_date lily_time : String)
    (lily_mood_slider lily_mood_activity_slider lily_energy_slider : Int) : List Value :=
  [.s lily_date, .s lily_time, .i lily_mood_slider, .i lily_mood_activity_slider,
   .i lily_energy_slider]

/-- The bound values of `insert_into_wiggles_walks_table` (line 377). -/
def lily_walk_bind_values (lily_date lily_time : String) (lily_behavior lily_gait : Int) : List Value :=
  [.s lily_date, .s lily_time, .i lily_behavior, .i lily_gait]

/-- The bound values of `insert_into_lily_walk_notes_table` (line 439). -/
def lily_walk_notes_bind_values (lily_date lily_time lily_walk_note : String) : List Value :=
  [.s lily_date, .s lily_time, .s lily_walk_note]

/-- Appending one row with the next AUTOINCREMENT identity. -/
def insertRow (t : Table) (vals : List Value) : Table :=
  ⟨t.nextId + 1, t.rows ++ [(t.nextId, vals)]⟩

/-- Driver semantics of executing a prepared INSERT: fails (returns the
database unchanged and `false`) when the table does not exist, otherwise
appends the row under a fresh identity. -/
def execInsert (db : DB) (name : String) (vals : List Value) : DB × Bool :=
  if hasTable db name then
    (⟨updateTable db.tables name (fun t => insertRow t vals)⟩, true)
  else (db, false)

/-- The shared body of the six insert handlers: prepare the statement, bind
the values, raise (abort, leaving the store unchanged) when the placeholder
count differs from the bound-value count, otherwise execute; a failed
execution is logged and leaves the store unchanged. -/
def checkedInsert (db : DB) (sql : String) (tableName : String) (bind_values : List Value) : DB :=
  if countQMarks sql ≠ bind_values.length then db
  else (execInsert db tableName bind_values).1

/-- Embedding of `DataManager.insert_into_lily_notes_table` (lines 120-152). -/
def insert_into_lily_notes_table (db : DB) (lily_date lily_time lily_notes : String) : DB :=
  checkedInsert db lily_notes_insert_sql "lily_notes_table"
    (lily_notes_bind_values lily_date lily_time lily_notes)

/-- Embedding of `DataManager.insert_into_time_in_room_table` (lines 179-213). -/
def insert_into_time_in_room_table (db : DB) (lily_date lily_time : String)
    (time_in_room_slider : Int) : DB :=
  checkedInsert db time_in_room_insert_sql "lily_in_room_table"
    (time_in_room_bind_values lily_date lily_time time_in_room_slider)

/-- Embedding of `DataManager.insert_into_lily_diet_table` (lines 238-269). -/
def insert_into_lily_diet_table (db : DB) (lily_date lily_time : String) : DB :=
  checkedInsert db lily_diet_insert_sql "lily_diet_table"
    (lily_diet_bind_values lily_date lily_time)

/-- Embedding of `DataManager.insert_into_lily_mood_table` (lines 286-326). -/
def insert_into_lily_mood_table (db : DB) (lily_date lily_time : String)
    (lily_mood_slider lily_mood_activity_slider lily_energy_slider : Int) : DB :=
  checkedInsert db lily_mood_insert_sql "lily_mood_table"
    (lily_mood_bind_values lily_date lily_time lily_mood_slider
      lily_mood_activity_slider lily_energy_slider)

/-- Embedding of `DataManager.insert_into_wiggles_walks_table` (lines 353-392). -/
def insert_into_wiggles_walks_table (db : DB) (lily_date lily_time : String)
    (lily_behavior lily_gait : Int) : DB :=
  checkedInsert db lily_walk_insert_sql "lily_walk_table"
    (lily_walk_bind_values lily_date lily_time lily_behavior lily_gait)

/-- Embedding of `DataManager.insert_into_lily_walk_notes_table` (lines 417-454). -/
def insert_into_lily_walk_notes_table (db : DB) (lily_date lily_time lily_walk_note : String) : DB :=
  checkedInsert db lily_walk_notes_insert_sql "lily_walk_notes_table"
    (lily_walk_notes_bind_values lily_date lily_time lily_walk_note)

/-- Modelled from the spec: `create_and_set_model` from
`database/database_utility/model_setup.py` is not under `src/`; per the spec
`bind(tableName)` issues a select-all against the table and returns its
current contents, and must be re-queried after any insert or delete. -/
def create_and_set_model (db : DB) (name : String) : List (Nat × List Value) :=
  match lookupTable db name with
  | some t => t.rows
  | none => []

/-- Modelled from the spec: `delete_selected_rows` from
`database/database_utility/delete_records.py` is not under `src/`; per the
spec `deleteRows(tableName, rowIdentities)` removes the rows with the given
identities (a driver failure would be logged and swallowed). -/
def delete_selected_rows (db : DB) (table_name : String) (selectedIds : List Nat) : DB :=
  ⟨updateTable db.tables table_name
    (fun t => ⟨t.nextId, t.rows.filter (fun r => !(selectedIds.contains r.1))⟩)⟩

/-- Well-formed table: identities are strictly increasing along the rows and
all below the AUTOINCREMENT counter. -/
def wfTable (t : Table) : Prop :=
  List.Pairwise (· < ·) (t.rows.map Prod.fst)
  ∧ ∀ i ∈ t.rows.map Prod.fst, i < t.nextId

/-- Embedding of the module-level `close_database` (lines 457-477): the
connection state of the store. -/
structure Connection where
  isOpen : Bool
deriving DecidableEq

/-- Embedding of `close_database`: closes the connection when it is open,
otherwise does nothing; any error would be logged, not raised. -/
def close_database (c : Connection) : Connection :=
  if c.isOpen then ⟨false⟩ else c

/-- The value types supported by the settings store. -/
inductive SType where
  | int
  | str
  | blob
deriving DecidableEq

/-- A settings value: integer, string, or binary blob. -/
inductive SVal where
  | i (v : Int)
  | s (v : String)
  | b (v : List Nat)
deriving DecidableEq

def valType : SVal → SType
  | .i _ => .int
  | .s _ => .str
  | .b _ => .blob

/-- Qt-style coercion of a value to an expected type. -/
def coerceTo (ty : SType) (v : SVal) : SVal :=
  match ty, v with
  | .int, .i n => .i n
  | .int, .s t => .i ((t.toInt?).getD 0)
  | .int, .b _ => .i 0
  | .str, .s t => .s t
  | .str, .i n => .s (toString n)
  | .str, .b _ => .s ""
  | .blob, .b v => .b v
  | .blob, .i _ => .b []
  | .blob, .s _ => .b []

/-- Modelled from the spec: the Settings Store of section 4.3 is backed by
`QSettings`, which is not part of this repository; it is a flat key-value
map, represented as an association list with the most recent write first. -/
def Settings : Type := List (String × SVal)

/-- Modelled from the spec: `setValue(key, value)` records the value under
the key. -/
def setValue (st : Settings) (k : String) (v : SVal) : Settings :=
  (k, v) :: st

def lookupS (st : Settings) (k : String) : Option SVal :=
  (st.find? (fun e => e.1 == k)).map Prod.snd

/-- Modelled from the spec: `getValue(key, default, expectedType)` returns
the stored value, or the caller-supplied default coerced to the expected
type when the key is missing. -/
def getValue (st : Settings) (k : String) (default : SVal) (ty : SType) : SVal :=
  match lookupS st k with
  | some v => coerceTo ty v
  | none => coerceTo ty default

/-- Modelled from the spec: `flush()` durably persists the whole key-value
map; the persisted form is the list of entries. -/
def flushSettings (st : Settings) : List (String × SVal) := st

/-- Modelled from the spec: reloading reconstructs the map from the
persisted entries. -/
def loadSettings (d : List (String × SVal)) : Settings := d

/-- The nine independently try-wrapped `setValue` keys of
`MainWindow.save_state` (main_window.py lines 556-592), in source order. -/
def nineSaveKeys : List String :=
  ["lily_time_in_room_slider", "lily_mood_slider", "lily_mood_activity_slider",
   "lily_energy_slider", "lily_time_in_room", "lily_mood", "lily_activity",
   "lily_energy", "lily_notes"]

/-- One try-wrapped `setValue` call: a raised exception (per the failure
oracle `fail`) is caught at this scope and logged; otherwise the value is
written. -/
def trySetValue (fail : String → Bool) (w : String → SVal)
    (acc : Settings × List String) (k : String) : Settings × List String :=
  if fail k then (acc.1, acc.2 ++ [k]) else (setValue acc.1 k (w k), acc.2)

/-- Embedding of `MainWindow.save_state` (lines 545-598): nine per-key
try-wrapped writes, then one final try block that writes both `geometry`
and `windowState`; `fail` says which `setValue` calls raise, `w` gives the
widget value saved under each key, and the second component is the log of
caught failures. -/
def save_state (fail : String → Bool) (w : String → SVal) (st : Settings) :
    Settings × List String :=
  let r9 := nineSaveKeys.foldl (trySetValue fail w) (st, [])
  if fail "geometry" then (r9.1, r9.2 ++ ["geometry"])
  else
    let stG := setValue r9.1 "geometry" (w "geometry")
    if fail "windowState" then (stG, r9.2 ++ ["windowState"])
    else (setValue stG "windowState" (w "windowState"), r9.2)

/-- The eleven independently try-wrapped reads of `MainWindow.restore_state`
(lines 600-652) in source order: key, hardcoded default, expected type. -/
def restoreEntries : List (String × SVal × SType) :=
  [("geometry", SVal.b [], SType.blob),
   ("lily_time_in_room_slider", SVal.i 0, SType.int),
   ("lily_mood_slider", SVal.i 0, SType.int),
   ("lily_mood_activity_slider", SVal.i 0, SType.int),
   ("lily_energy_slider", SVal.i 0, SType.int),
   ("lily_time_in_room", SVal.i 0, SType.int),
   ("lily_mood", SVal.i 0, SType.int),
   ("lily_activity", SVal.i 0, SType.int),
   ("lily_energy", SVal.i 0, SType.int),
   ("lily_notes", SVal.s "", SType.str),
   ("windowState", SVal.b [], SType.blob)]

/-- One try-wrapped restore of a single key: a raised exception is caught at
this scope and logged; otherwise the read value is applied to the widget
(recorded as an assignment). -/
def tryRestore (fail : String → Bool) (st : Settings)
    (acc : List (String × SVal) × List String) (e : String × SVal × SType) :
    List (String × SVal) × List String :=
  if fail e.1 then (acc.1, acc.2 ++ [e.1])
  else (acc.1 ++ [(e.1, getValue st e.1 e.2.1 e.2.2)], acc.2)

/-- Embedding of `MainWindow.restore_state`: each known key is read with its
hardcoded default inside its own try block; the first component lists the
widget assignments performed, the second the caught failures. -/
def restore_state (fail : String → Bool) (st : Settings) :
    List (String × SVal) × List String :=
  restoreEntries.foldl (tryRestore fail st) ([], [])

/-- Embedding of `MainWindow.setup_delete_actions` (main_window.py lines
469-543): the `(tableName, modelName)` arguments of the six
`delete_selected_rows` calls connected to the single `action_delete_record`
trigger; a Qt signal invokes its connected slots in connection order, so one
trigger performs these six invocations in this order. -/
def deleteActionConnections : List (String × String) :=
  [("lily_walk_table", "lily_walk_model"),
   ("lily_diet_table", "lily_diet_model"),
   ("lily_mood_table", "lily_mood_model"),
   ("time_in_room_table", "lily_room_model"),
   ("lily_notes_table", "lily_note_model"),
   ("lily_walk_note_table", "lily_walk_note_model")]

/-- The names of the tables present in a database state. -/
def setupTableNames (db : DB) : List String := db.tables.map Prod.fst

lemma execCreate_eq (db : DB) (name : String) :
    execCreateTableIfNotExists db name = (createTableIfNotExists db name, true) := by
  cases h : hasTable db name <;>
    simp [execCreateTableIfNotExists, createTableIfNotExists, h]

lemma setup_lily_diet_table_eq (db : DB) :
    setup_lily_diet_table db = (createTableIfNotExists db "lily_diet_table", []) := by
  simp [setup_lily_diet_table, execCreate_eq]

lemma setup_lily_mood_table_eq (db : DB) :
    setup_lily_mood_table db = (createTableIfNotExists db "lily_mood_table", []) := by
  simp [setup_lily_mood_table, execCreate_eq]

lemma setup_wiggles_walks_table_eq (db : DB) :
    setup_wiggles_walks_table db = (createTableIfNotExists db "lily_walk_table", []) := by
  simp [setup_wiggles_walks_table, execCreate_eq]

lemma setup_time_in_room_table_eq (db : DB) :
    setup_time_in_room_table db = (createTableIfNotExists db "lily_in_room_table", []) := by
  simp [setup_time_in_room_table, execCreate_eq]

lemma setup_lily_notes_table_eq (db : DB) :
    setup_lily_notes_table db = (createTableIfNotExists db "lily_notes_table", []) := by
  simp [setup_lily_notes_table, execCreate_eq]

lemma setup_lily_walk_notes_table_eq (db : DB) :
    setup_lily_walk_notes_table db = (createTableIfNotExists db "lily_walk_notes_table", []) := by
  simp [setup_lily_walk_notes_table, execCreate_eq]

lemma setup_tables_eq (db : DB) :
    setup_tables db = (categoryTableNames.foldl createTableIfNotExists db, []) := by
  simp [setup_tables, setup_lily_diet_table_eq, setup_lily_mood_table_eq,
    setup_wiggles_walks_table_eq, setup_time_in_room_table_eq,
    setup_lily_notes_table_eq, setup_lily_walk_notes_table_eq, categoryTableNames]

lemma setupTablesDB_eq (db : DB) :
    setupTablesDB db = categoryTableNames.foldl createTableIfNotExists db := by
  rw [setupTablesDB, setup_tables_eq]

lemma hasTable_create (db : DB) (n m : String) :
    hasTable (createTableIfNotExists db n) m = (hasTable db m || (n == m)) := by
  by_cases h : hasTable db n = true
  · by_cases hnm : n = m
    · subst hnm
      simp [createTableIfNotExists, execCreateTableIfNotExists, h]
    · have hf : (n == m) = false := beq_eq_false_iff_ne.mpr hnm
      simp [createTableIfNotExists, execCreateTableIfNotExists, h, hf]
  · have hf : hasTable db n = false := by simpa using h
    simp only [createTableIfNotExists, execCreateTableIfNotExists, hf,
      Bool.false_eq_true, if_false]
    simp [hasTable, List.any_append]

lemma create_id_of_hasTable (db : DB) (n : String) (h : hasTable db n = true) :
    createTableIfNotExists db n = db := by
  simp [createTableIfNotExists, execCreateTableIfNotExists, h]

lemma fold_create_hasTable_mono (names : List String) (db : DB) (m : String)
    (h : hasTable db m = true) :
    hasTable (names.foldl createTableIfNotExists db) m = true := by
  induction names generalizing db with
  | nil => simpa using h
  | cons a rest ih =>
    simp only [List.foldl_cons]
    exact ih _ (by simp [hasTable_create, h])

lemma fold_create_hasTable_of_mem (names : List String) (m : String)
    (h : m ∈ names) :
    ∀ db, hasTable (names.foldl createTableIfNotExists db) m = true := by
  induction names with
  | nil => cases h
  | cons a rest ih =>
    intro db
    simp only [List.foldl_cons]
    rcases List.mem_cons.mp h with h1 | h2
    · subst h1
      exact fold_create_hasTable_mono rest _ m (by simp [hasTable_create])
    · exact ih h2 _

lemma fold_create_id (names : List String) :
    ∀ db, (∀ n ∈ names, hasTable db n = true) →
      names.foldl createTableIfNotExists db = db := by
  induction names with
  | nil => intro db _; rfl
  | cons a rest ih =>
    intro db h
    simp only [List.foldl_cons]
    rw [create_id_of_hasTable db a (h a (by simp))]
    exact ih db (fun n hn => h n (by simp [hn]))

lemma setupTablesDB_idem (db : DB) :
    setupTablesDB (setupTablesDB db) = setupTablesDB db := by
  simp only [setupTablesDB_eq]
  exact fold_create_id categoryTableNames _
    (fun n hn => fold_create_hasTable_of_mem categoryTableNames n hn db)

lemma setupTablesDB_iterate (db : DB) :
    ∀ n, 1 ≤ n → setupTablesDB^[n] db = setupTablesDB db := by
  intro n
  induction n with
  | zero => intro h; omega
  | succ k ih =>
    intro _
    rcases Nat.eq_zero_or_pos k with hk | hk
    · subst hk; simp
    · rw [Function.iterate_succ_apply', ih hk, setupTablesDB_idem]

lemma hasTable_iff_countTable_pos (db : DB) (n : String) :
    hasTable db n = true ↔ 0 < countTable db n := by
  simp [hasTable, countTable, List.any_eq_true, List.countP_pos_iff]

lemma countTable_create_own (db : DB) (n : String) (h : countTable db n ≤ 1) :
    countTable (createTableIfNotExists db n) n = 1 := by
  by_cases hh : hasTable db n = true
  · rw [create_id_of_hasTable db n hh]
    have := (hasTable_iff_countTable_pos db n).mp hh
    omega
  · have h0 : countTable db n = 0 := by
      have hnp : ¬ 0 < countTable db n :=
        fun hp => hh ((hasTable_iff_countTable_pos db n).mpr hp)
      omega
    have hf : hasTable db n = false := by simpa using hh
    simp only [countTable] at h0
    simp [createTableIfNotExists, execCreateTableIfNotExists, hf, countTable,
      List.countP_append, List.countP_cons, h0]

lemma countTable_create_other (db : DB) (n m : String) (hnm : (n == m) = false) :
    countTable (createTableIfNotExists db n) m = countTable db m := by
  by_cases hh : hasTable db n = true
  · rw [create_id_of_hasTable db n hh]
  · have hf : hasTable db n = false := by simpa using hh
    simp [createTableIfNotExists, execCreateTableIfNotExists, hf, countTable,
      List.countP_append, List.countP_cons, hnm]

lemma fold_count_one_preserve (names : List String) :
    ∀ db m, countTable db m = 1 →
      countTable (names.foldl createTableIfNotExists db) m = 1 := by
  induction names with
  | nil => intro db m h; simpa using h
  | cons a rest ih =>
    intro db m h
    simp only [List.foldl_cons]
    by_cases hc : (a == m) = true
    · have ham : a = m := by simpa using hc
      subst ham
      rw [create_id_of_hasTable db a ((hasTable_iff_countTable_pos db a).mpr (by omega))]
      exact ih db a h
    · have hf : (a == m) = false := by simpa using hc
      exact ih _ m (by rw [countTable_create_other db a m hf]; exact h)

lemma fold_count_one_of_mem (names : List String) :
    ∀ db m, m ∈ names → countTable db m ≤ 1 →
      countTable (names.foldl createTableIfNotExists db) m = 1 := by
  induction names with
  | nil => intro db m h _; cases h
  | cons a rest ih =>
    intro db m hm hle
    simp only [List.foldl_cons]
    rcases List.mem_cons.mp hm with h1 | h2
    · subst h1
      exact fold_count_one_preserve rest _ _ (countTable_create_own db m hle)
    · by_cases hc : (a == m) = true
      · have ham : a = m := by simpa using hc
        subst ham
        exact fold_count_one_preserve rest _ _ (countTable_create_own db a hle)
      · have hf : (a == m) = false := by simpa using hc
        exact ih _ m h2 (by rw [countTable_create_other db a m hf]; exact hle)

/-- Claim C1: when no user database file exists at the target path but the
bundled template exists, `initialize_database` copies the template, so the
target afterwards holds byte-identical content (every other path untouched);
when the target already exists, nothing is copied and the whole file system
is left unchanged. -/
theorem initialize_database_seeds_from_template (db_path target_db_path : String)
    (fs : FS) (c : List Nat) :
    (fs target_db_path = none → fs db_path = some c →
      initialize_database db_path target_db_path fs target_db_path = some c
      ∧ ∀ p, p ≠ target_db_path →
          initialize_database db_path target_db_path fs p = fs p)
    ∧ (∀ c0, fs target_db_path = some c0 →
        initialize_database db_path target_db_path fs = fs) := by
  constructor
  · intro h1 h2
    constructor
    · simp [initialize_database, h1, h2]
    · intro p hp
      simp [initialize_database, h1, h2, hp]
  · intro c0 h
    exact initialize_database_of_target_exists db_path target_db_path fs (by simp [h])

/-- Witness for C1 at a concrete file system holding only the template. -/
theorem initialize_database_seeds_from_template_witness :
    initialize_database "app/lily.db" "home/lily.db" fsTemplateOnly "home/lily.db"
      = some [1, 2, 3] :=
  ((initialize_database_seeds_from_template "app/lily.db" "home/lily.db"
      fsTemplateOnly [1, 2, 3]).1 (by decide) (by decide)).1

/-- Claim C10: when neither the user database file nor the bundled template
exists, `initialize_database` creates a new empty database at the target
path (a fresh connection is opened, which creates the file, then closed)
rather than failing; when the target already exists, the file system is not
changed at all. -/
theorem initialize_database_creates_fresh (db_path target_db_path : String) (fs : FS) :
    (fs target_db_path = none → fs db_path = none →
      initialize_database db_path target_db_path fs target_db_path = some newDatabaseFile
      ∧ ∀ p, p ≠ target_db_path →
          initialize_database db_path target_db_path fs p = fs p)
    ∧ (∀ c0, fs target_db_path = some c0 →
        initialize_database db_path target_db_path fs = fs) := by
  constructor
  · intro h1 h2
    constructor
    · simp [initialize_database, h1, h2]
    · intro p hp
      simp [initialize_database, h1, h2, hp]
  · intro c0 h
    exact initialize_database_of_target_exists db_path target_db_path fs (by simp [h])

/-- Witness for C10 at the empty file system. -/
theorem initialize_database_creates_fresh_witness :
    initialize_database "app/lily.db" "home/lily.db" fsNothing "home/lily.db"
      = some newDatabaseFile :=
  ((initialize_database_creates_fresh "app/lily.db" "home/lily.db" fsNothing).1
    rfl rfl).1

/-- Claim C2: `setup_tables` is idempotent — on a store whose table names
are unduplicated, the state after any number N of calls (N at least 1)
equals the state after one call, each of the six category tables exists
exactly once afterwards, and no duplicate-table error surfaces (the error
log of every call is empty). -/
theorem setup_tables_idempotent (db : DB) (n : Nat) (hn : 1 ≤ n)
    (hwf : ∀ name, countTable db name ≤ 1) :
    setupTablesDB^[n] db = setupTablesDB db
    ∧ (∀ name ∈ categoryTableNames, countTable (setupTablesDB db) name = 1)
    ∧ (setup_tables db).2 = [] := by
  refine ⟨setupTablesDB_iterate db n hn, ?_, ?_⟩
  · intro name hname
    rw [setupTablesDB_eq]
    exact fold_count_one_of_mem categoryTableNames db name hname (hwf name)
  · rw [setup_tables_eq]

/-- Witness for C2: two runs of `setup_tables` on the empty store. -/
theorem setup_tables_idempotent_witness :
    setupTablesDB^[2] emptyDB = setupTablesDB emptyDB
    ∧ (∀ name ∈ categoryTableNames, countTable (setupTablesDB emptyDB) name = 1)
    ∧ (setup_tables emptyDB).2 = [] :=
  setup_tables_idempotent emptyDB 2 (by decide)
    (fun name => by simp [countTable, emptyDB])

lemma lookupTable_updateTable (tables : List (String × Table)) (name : String)
    (f : Table → Table) :
    ((updateTable tables name f).find? (fun e => e.1 == name)).map Prod.snd
      = ((tables.find? (fun e => e.1 == name)).map Prod.snd).map f := by
  induction tables with
  | nil => simp [updateTable]
  | cons a rest ih =>
    obtain ⟨n, t⟩ := a
    cases h : (n == name) with
    | true => simp [updateTable, h, List.find?_cons_of_pos]
    | false => simpa [updateTable, h, List.find?_cons_of_neg] using ih

lemma lookupTable_hasTable (db : DB) (n : String) (t : Table)
    (h : lookupTable db n = some t) : hasTable db n = true := by
  simp only [lookupTable, Option.map_eq_some'] at h
  obtain ⟨e, he, _⟩ := h
  have hp := List.find?_some he
  simp only [hasTable, List.any_eq_true]
  exact ⟨e, List.mem_of_find?_eq_some he, by simpa using hp⟩

lemma checkedInsert_exec (db : DB) (sql : String) (tn : String) (bvs : List Value)
    (h : countQMarks sql = bvs.length) :
    checkedInsert db sql tn bvs = (execInsert db tn bvs).1 := by
  simp [checkedInsert, h]

lemma lookupTable_execInsert (db : DB) (t : Table) (tn : String) (vals : List Value)
    (h : lookupTable db tn = some t) :
    lookupTable (execInsert db tn vals).1 tn = some (insertRow t vals) := by
  have hT := lookupTable_hasTable db tn t h
  simp only [execInsert, hT, if_true]
  simp only [lookupTable] at h ⊢
  rw [lookupTable_updateTable, h]
  rfl

lemma wfTable_insertRow (t : Table) (vals : List Value) (h : wfTable t) :
    wfTable (insertRow t vals) ∧ t.nextId ∉ t.rows.map Prod.fst := by
  obtain ⟨hp, hb⟩ := h
  have hfresh : t.nextId ∉ t.rows.map Prod.fst :=
    fun hm => absurd (hb _ hm) (by omega)
  refine ⟨⟨?_, ?_⟩, hfresh⟩
  · simp only [insertRow, List.map_append, List.map_cons, List.map_nil]
    rw [List.pairwise_append]
    refine ⟨hp, by simp, ?_⟩
    intro a ha b hbm
    simp only [List.mem_singleton] at hbm
    subst hbm
    exact hb a ha
  · intro i hi
    simp only [insertRow, List.map_append, List.map_cons, List.map_nil] at hi ⊢
    rcases List.mem_append.mp hi with h1 | h2
    · exact Nat.lt_succ_of_lt (hb i h1)
    · simp only [List.mem_singleton] at h2
      omega

/-- Claim C3: inserting a mood record with date 2024-01-01, time 09:00,
mood 3, activity 2, energy 4 into the freshly set-up (empty) mood table and
rebinding yields exactly one row holding those five values under the
store-assigned identity 1; in general, an insert followed by a rebind
yields exactly the previous rows plus the inserted values under a fresh
identity, and the identities stay unique and increasing. -/
theorem insert_mood_then_bind (db : DB) (t : Table) (d tm : String) (m a e : Int)
    (h : lookupTable db "lily_mood_table" = some t) (hwf : wfTable t) :
    create_and_set_model
        (insert_into_lily_mood_table (setupTablesDB emptyDB) "2024-01-01" "09:00" 3 2 4)
        "lily_mood_table"
      = [(1, [Value.s "2024-01-01", Value.s "09:00", Value.i 3, Value.i 2, Value.i 4])]
    ∧ create_and_set_model (insert_into_lily_mood_table db d tm m a e) "lily_mood_table"
        = t.rows ++ [(t.nextId, lily_mood_bind_values d tm m a e)]
    ∧ t.nextId ∉ t.rows.map Prod.fst
    ∧ wfTable (insertRow t (lily_mood_bind_values d tm m a e)) := by
  have hq : countQMarks lily_mood_insert_sql = 5 := by decide
  have hlen : (lily_mood_bind_values d tm m a e).length = 5 := by
    simp [lily_mood_bind_values]
  have hiw := wfTable_insertRow t (lily_mood_bind_values d tm m a e) hwf
  refine ⟨by decide, ?_, hiw.2, hiw.1⟩
  rw [insert_into_lily_mood_table, checkedInsert_exec _ _ _ _ (by rw [hq, hlen])]
  rw [create_and_set_model, lookupTable_execInsert db t _ _ h]
  rfl

/-- Witness for C3 on the freshly set-up store and its empty mood table. -/
theorem insert_mood_then_bind_witness :
    create_and_set_model
        (insert_into_lily_mood_table (setupTablesDB emptyDB) "2024-01-01" "09:00" 3 2 4)
        "lily_mood_table"
      = emptyTable.rows ++ [(emptyTable.nextId, lily_mood_bind_values "2024-01-01" "09:00" 3 2 4)] :=
  (insert_mood_then_bind (setupTablesDB emptyDB) emptyTable "2024-01-01" "09:00" 3 2 4
    (by decide) ⟨List.Pairwise.nil, by simp [emptyTable]⟩).2.1

/-- Claim C4: each of the six insert handlers builds its statement with
exactly as many placeholders as values it binds, for every call; and in the
hypothetical case of a mismatch the handler aborts before executing,
leaving the store unchanged. -/
theorem insert_placeholder_counts_match :
    (∀ d t n, countQMarks lily_notes_insert_sql = (lily_notes_bind_values d t n).length)
    ∧ (∀ d t r, countQMarks time_in_room_insert_sql = (time_in_room_bind_values d t r).length)
    ∧ (∀ d t, countQMarks lily_diet_insert_sql = (lily_diet_bind_values d t).length)
    ∧ (∀ d t m a e, countQMarks lily_mood_insert_sql = (lily_mood_bind_values d t m a e).length)
    ∧ (∀ d t b g, countQMarks lily_walk_insert_sql = (lily_walk_bind_values d t b g).length)
    ∧ (∀ d t w, countQMarks lily_walk_notes_insert_sql = (lily_walk_notes_bind_values d t w).length)
    ∧ (∀ (db : DB) (sql tn : String) (bvs : List Value),
        countQMarks sql ≠ bvs.length → checkedInsert db sql tn bvs = db) := by
  refine ⟨?_, ?_, ?_, ?_, ?_, ?_, ?_⟩
  · intro d t n; simp [lily_notes_bind_values]; decide
  · intro d t r; simp [time_in_room_bind_values]; decide
  · intro d t; simp [lily_diet_bind_values]; decide
  · intro d t m a e; simp [lily_mood_bind_values]; decide
  · intro d t b g; simp [lily_walk_bind_values]; decide
  · intro d t w; simp [lily_walk_notes_bind_values]; decide
  · intro db sql tn bvs h; simp [checkedInsert, h]

/-- Witness for C4: a mismatched hypothetical call aborts without touching
the store. -/
theorem insert_placeholder_counts_match_witness :
    checkedInsert emptyDB "VALUES (?)" "lily_mood_table" [] = emptyDB :=
  insert_placeholder_counts_match.2.2.2.2.2.2 emptyDB "VALUES (?)" "lily_mood_table" []
    (by decide)

lemma coerceTo_of_valType (v : SVal) (ty : SType) (h : valType v = ty) :
    coerceTo ty v = v := by
  subst h
  cases v <;> rfl

lemma lookupS_setValue_self (st : Settings) (k : String) (v : SVal) :
    lookupS (setValue st k v) k = some v := by
  simp [lookupS, setValue, List.find?_cons_of_pos]

lemma lookupS_setValue_ne (st : Settings) (k k' : String) (v : SVal) (h : k' ≠ k) :
    lookupS (setValue st k v) k' = lookupS st k' := by
  have hf : (k == k') = false := beq_eq_false_iff_ne.mpr (fun he => h he.symm)
  simp [lookupS, setValue, List.find?_cons_of_neg, hf]

/-- Claim C5: a set value of any supported type survives flush and reload
and is returned by a subsequent read; a key that was never set returns the
caller-supplied default coerced to the expected type (hence the default
itself whenever the default already has that type). -/
theorem settings_roundtrip :
    (∀ (st : Settings) (k : String) (v d : SVal) (ty : SType), valType v = ty →
      getValue (loadSettings (flushSettings (setValue st k v))) k d ty = v)
    ∧ (∀ (st : Settings) (k : String) (d : SVal) (ty : SType),
        lookupS st k = none → getValue st k d ty = coerceTo ty d)
    ∧ (∀ (st : Settings) (k : String) (d : SVal) (ty : SType),
        lookupS st k = none → valType d = ty → getValue st k d ty = d) := by
  refine ⟨?_, ?_, ?_⟩
  · intro st k v d ty h
    simp [loadSettings, flushSettings, getValue, lookupS_setValue_self,
      coerceTo_of_valType v ty h]
  · intro st k d ty h
    simp [getValue, h]
  · intro st k d ty h h2
    simp [getValue, h, coerceTo_of_valType d ty h2]

/-- Witness for C5: an integer round-trips; an unset string key returns its
default. -/
theorem settings_roundtrip_witness :
    getValue (loadSettings (flushSettings (setValue ([] : Settings) "lily_mood" (SVal.i 7))))
        "lily_mood" (SVal.i 0) SType.int = SVal.i 7
    ∧ getValue ([] : Settings) "lily_notes" (SVal.s "") SType.str = SVal.s "" :=
  ⟨settings_roundtrip.1 [] "lily_mood" (SVal.i 7) (SVal.i 0) SType.int rfl,
   settings_roundtrip.2.2 [] "lily_notes" (SVal.s "") SType.str rfl rfl⟩

lemma updateTable_congr_id (tables : List (String × Table)) (name : String)
    (f : Table → Table) (h : ∀ t, f t = t) : updateTable tables name f = tables := by
  induction tables with
  | nil => rfl
  | cons a rest ih =>
    obtain ⟨n, t⟩ := a
    cases hc : (n == name) <;> simp [updateTable, hc, h, ih]

/-- Claim C7: deleting with an empty selection leaves every table of the
store exactly as it was, with no error surfaced. -/
theorem delete_rows_empty_noop (db : DB) (table_name : String) :
    delete_selected_rows db table_name [] = db := by
  rw [delete_selected_rows]
  have h : ∀ t : Table,
      (⟨t.nextId, t.rows.filter (fun r => !(([] : List Nat).contains r.1))⟩ : Table) = t := by
    intro t
    have hp : (fun r : Nat × List Value => !(([] : List Nat).contains r.1)) = fun _ => true := by
      funext r
      simp
    rw [hp, List.filter_true]
  rw [updateTable_congr_id db.tables table_name _ h]

/-- Claim C8: `close_database` releases the connection only when it is open;
a call on an already-closed store changes nothing, so repeated calls are
safe and idempotent. -/
theorem close_database_idempotent (c : Connection) :
    close_database (close_database c) = close_database c
    ∧ (c.isOpen = false → close_database c = c)
    ∧ (close_database c).isOpen = false := by
  obtain ⟨b⟩ := c
  cases b <;> simp [close_database]

/-- Witness for C8: closing twice from open, and closing a closed store. -/
theorem close_database_idempotent_witness :
    close_database (close_database ⟨true⟩) = close_database ⟨true⟩
    ∧ close_database ⟨false⟩ = ⟨false⟩ :=
  ⟨(close_database_idempotent ⟨true⟩).1, (close_database_idempotent ⟨false⟩).2.1 rfl⟩

/-- Claim C9: one trigger of the delete-record action invokes
`delete_selected_rows` once per category model in the fixed source order
walk, diet, mood, room-time, notes, walk-notes, and the room-time and
walk-note invocations pass the table names `time_in_room_table` and
`lily_walk_note_table`, neither of which is among the six table names the
schema setup creates. -/
theorem delete_action_targets :
    deleteActionConnections =
      [("lily_walk_table", "lily_walk_model"), ("lily_diet_table", "lily_diet_model"),
       ("lily_mood_table", "lily_mood_model"), ("time_in_room_table", "lily_room_model"),
       ("lily_notes_table", "lily_note_model"), ("lily_walk_note_table", "lily_walk_note_model")]
    ∧ deleteActionConnections.length = 6
    ∧ setupTableNames (setupTablesDB emptyDB) = categoryTableNames
    ∧ (setupTableNames (setupTablesDB emptyDB)).contains "time_in_room_table" = false
    ∧ (setupTableNames (setupTablesDB emptyDB)).contains "lily_walk_note_table" = false := by
  refine ⟨rfl, rfl, by decide, by decide, by decide⟩

lemma foldl_trySet_lookup_not_mem (fail : String → Bool) (w : String → SVal)
    (keys : List String) (k : String) :
    ∀ acc : Settings × List String, k ∉ keys →
      lookupS (keys.foldl (trySetValue fail w) acc).1 k = lookupS acc.1 k := by
  induction keys with
  | nil => intro acc _; rfl
  | cons a rest ih =>
    intro acc hk
    have hka : k ≠ a := fun he => hk (by simp [he])
    have hkr : k ∉ rest := fun hm => hk (by simp [hm])
    simp only [List.foldl_cons]
    rw [ih _ hkr]
    cases hf : fail a with
    | true => simp [trySetValue, hf]
    | false => simp [trySetValue, hf, lookupS_setValue_ne acc.1 a k (w a) hka]

lemma foldl_trySet_lookup_mem (fail : String → Bool) (w : String → SVal)
    (keys : List String) (k : String) :
    ∀ acc : Settings × List String, k ∈ keys → keys.Nodup → fail k = false →
      lookupS (keys.foldl (trySetValue fail w) acc).1 k = some (w k) := by
  induction keys with
  | nil => intro acc h _ _; cases h
  | cons a rest ih =>
    intro acc hm hnd hf
    have hnd' := List.nodup_cons.mp hnd
    simp only [List.foldl_cons]
    rcases List.mem_cons.mp hm with h1 | h2
    · subst h1
      rw [foldl_trySet_lookup_not_mem fail w rest k _ hnd'.1]
      simp [trySetValue, hf, lookupS_setValue_self]
    · exact ih _ h2 hnd'.2 hf

lemma foldl_tryRestore_preserve (fail : String → Bool) (st : Settings)
    (entries : List (String × SVal × SType)) :
    ∀ acc x, x ∈ acc.1 → x ∈ (entries.foldl (tryRestore fail st) acc).1 := by
  induction entries with
  | nil => intro acc x h; exact h
  | cons a rest ih =>
    intro acc x h
    simp only [List.foldl_cons]
    apply ih
    cases hf : fail a.1 <;> simp [tryRestore, hf, h]

lemma foldl_tryRestore_mem (fail : String → Bool) (st : Settings)
    (entries : List (String × SVal × SType)) :
    ∀ acc e, e ∈ entries → fail e.1 = false →
      (e.1, getValue st e.1 e.2.1 e.2.2) ∈ (entries.foldl (tryRestore fail st) acc).1 := by
  induction entries with
  | nil => intro acc e hm _; cases hm
  | cons a rest ih =>
    intro acc e hm hf
    simp only [List.foldl_cons]
    rcases List.mem_cons.mp hm with h1 | h2
    · subst h1
      apply foldl_tryRestore_preserve
      simp [tryRestore, hf]
    · exact ih _ e h2 hf

/-- Claim C6 as amended: every store and settings suboperation is caught and
logged at its own scope and leaves siblings unaffected — each non-failing
per-key write of `save_state` lands regardless of other keys' failures,
each non-failing per-key read of `restore_state` is applied regardless of
other keys' failures, a failing insert leaves the store unchanged and later
inserts still succeed — with the one exception the code forces: the
`geometry` and `windowState` writes of `save_state` share a single scope,
so a failure of the geometry write prevents the windowState write. -/
theorem save_and_restore_error_isolation (fail : String → Bool) (w : String → SVal)
    (st : Settings) (db : DB) (d tm nts : String) (t : Table) (m a e : Int) :
    (∀ k ∈ nineSaveKeys, fail k = false →
      lookupS (save_state fail w st).1 k = some (w k))
    ∧ (fail "geometry" = false → fail "windowState" = false →
        lookupS (save_state fail w st).1 "geometry" = some (w "geometry")
        ∧ lookupS (save_state fail w st).1 "windowState" = some (w "windowState"))
    ∧ (fail "geometry" = true →
        lookupS (save_state fail w st).1 "windowState" = lookupS st "windowState")
    ∧ (∀ entry ∈ restoreEntries, fail entry.1 = false →
        (entry.1, getValue st entry.1 entry.2.1 entry.2.2) ∈ (restore_state fail st).1)
    ∧ (hasTable db "lily_notes_table" = false →
        insert_into_lily_notes_table db d tm nts = db)
    ∧ (hasTable db "lily_notes_table" = false →
        lookupTable db "lily_mood_table" = some t → wfTable t →
        create_and_set_model
            (insert_into_lily_mood_table (insert_into_lily_notes_table db d tm nts) d tm m a e)
            "lily_mood_table"
          = t.rows ++ [(t.nextId, lily_mood_bind_values d tm m a e)]) := by
  have hnotesEq : ∀ (h : hasTable db "lily_notes_table" = false),
      insert_into_lily_notes_table db d tm nts = db := by
    intro h
    have hq : countQMarks lily_notes_insert_sql = 3 := by decide
    simp [insert_into_lily_notes_table, checkedInsert, hq, lily_notes_bind_values,
      execInsert, h]
  refine ⟨?_, ?_, ?_, ?_, hnotesEq, ?_⟩
  · intro k hk hf
    have hkg : k ≠ "geometry" := by
      intro he
      subst he
      revert hk
      decide
    have hkw : k ≠ "windowState" := by
      intro he
      subst he
      revert hk
      decide
    have hnd : nineSaveKeys.Nodup := by decide
    cases hg : fail "geometry" with
    | true =>
      simp only [save_state, hg, if_true]
      exact foldl_trySet_lookup_mem fail w nineSaveKeys k _ hk hnd hf
    | false =>
      cases hw : fail "windowState" with
      | true =>
        simp only [save_state, hg, hw, Bool.false_eq_true, if_false, if_true]
        rw [lookupS_setValue_ne _ _ _ _ hkg]
        exact foldl_trySet_lookup_mem fail w nineSaveKeys k _ hk hnd hf
      | false =>
        simp only [save_state, hg, hw, Bool.false_eq_true, if_false]
        rw [lookupS_setValue_ne _ _ _ _ hkw, lookupS_setValue_ne _ _ _ _ hkg]
        exact foldl_trySet_lookup_mem fail w nineSaveKeys k _ hk hnd hf
  · intro hg hw
    simp only [save_state, hg, hw, Bool.false_eq_true, if_false]
    constructor
    · rw [lookupS_setValue_ne _ _ _ _ (by decide : "geometry" ≠ "windowState")]
      exact lookupS_setValue_self _ _ _
    · exact lookupS_setValue_self _ _ _
  · intro hg
    simp only [save_state, hg, if_true]
    exact foldl_trySet_lookup_not_mem fail w nineSaveKeys "windowState" _ (by decide)
  · intro entry hm hf
    exact foldl_tryRestore_mem fail st restoreEntries _ entry hm hf
  · intro h hlook hwf
    rw [hnotesEq h]
    have hq : countQMarks lily_mood_insert_sql = 5 := by decide
    have hlen : (lily_mood_bind_values d tm m a e).length = 5 := by
      simp [lily_mood_bind_values]
    rw [insert_into_lily_mood_table, checkedInsert_exec _ _ _ _ (by rw [hq, hlen])]
    rw [create_and_set_model, lookupTable_execInsert db t _ _ hlook]
    rfl

/-- Witness for the amended C6 at a concrete failure oracle and store. -/
theorem save_and_restore_error_isolation_witness :
    lookupS (save_state (fun _ => false) (fun _ => SVal.i 1) []).1 "lily_mood_slider"
      = some (SVal.i 1) :=
  (save_and_restore_error_isolation (fun _ => false) (fun _ => SVal.i 1) [] emptyDB
    "d" "t" "n" emptyTable 0 0 0).1 "lily_mood_slider" (by decide) rfl

/-- Counterexample to C6 as stated: when only the `geometry` write raises,
`save_state` never performs the `windowState` write (starting from empty
settings, no windowState entry exists afterwards), although the windowState
write itself does not fail — one suboperation's failure does prevent a
sibling suboperation. -/
theorem save_state_geometry_blocks_windowState :
    lookupS (save_state (fun k => k == "geometry") (fun _ => SVal.i 0) []).1 "windowState"
      = none
    ∧ (fun k : String => k == "geometry") "windowState" = false := by
  constructor
  · decide
  · decide
